import Mathlib

/-!
Verification of the Ajax Security System Home Assistant integration
(`custom_components/ajax`): a shallow embedding of the domain model, the
reconciliation coordinator's public contract, and the entity-platform
command/availability logic, with theorems settling the specified
properties.

Python mappings (`dict`) are embedded extensionally as functions
`String → Option _`: Python dictionary equality is extensional, and the
model's maps are only read through `.get`-style lookups and written
through keyed updates.  Asynchronous entity methods are embedded as pure
functions from the coordinator state and the outcome of the awaited API
call to the resulting coordinator state, an ordered trace of the
side-effecting actions the method performs, and the exception it
re-raises (if any).
-/

/- ---------------------------------------------------------------------
Domain model (`models.py` is not shipped under src/; the enumerations and
record shapes below are modelled from the spec, section 3, and from the
fields the entity platforms under src/ read).
--------------------------------------------------------------------- -/

/-- Security state of a space, from the spec section 3: enumerated values
DISARMED, ARMED, NIGHT_MODE, PARTIALLY_ARMED, AWAITING_EXIT_TIMER,
AWAITING_CONFIRMATION, ARMING_INCOMPLETE, TRIGGERED. -/
inductive SecurityState
  | DISARMED
  | ARMED
  | NIGHT_MODE
  | PARTIALLY_ARMED
  | AWAITING_EXIT_TIMER
  | AWAITING_CONFIRMATION
  | ARMING_INCOMPLETE
  | TRIGGERED
  deriving DecidableEq, Repr

/-- Group state, from the spec section 3: ARMED, DISARMED, NONE. -/
inductive GroupState
  | ARMED
  | DISARMED
  | NONE
  deriving DecidableEq, Repr

/-- Host-side alarm panel states used by `alarm_control_panel.py`
(`AlarmControlPanelState` values referenced by the state maps). -/
inductive AlarmControlPanelState
  | DISARMED
  | ARMED_AWAY
  | ARMED_NIGHT
  | ARMED_HOME
  | ARMING
  | PENDING
  | TRIGGERED
  deriving DecidableEq, Repr

/-- Device type enumeration: members referenced by
`devices/__init__.py` (the DEVICE_HANDLERS registry), `select.py`,
`switch.py` and `camera.py`, plus the UNKNOWN fallback from the spec. -/
inductive DeviceType
  | MOTION_DETECTOR
  | COMBI_PROTECT
  | DOOR_CONTACT
  | WIRE_INPUT
  | SMOKE_DETECTOR
  | FLOOD_DETECTOR
  | MANUAL_CALL_POINT
  | GLASS_BREAK
  | SOCKET
  | RELAY
  | WALLSWITCH
  | SIREN
  | SPEAKERPHONE
  | TRANSMITTER
  | MULTI_TRANSMITTER
  | KEYPAD
  | BUTTON
  | REMOTE_CONTROL
  | DOORBELL
  | REPEATER
  | HUB
  | WATERSTOP
  | LIFE_QUALITY
  | VIDEO_EDGE
  | UNKNOWN
  deriving DecidableEq, Repr

/-- Video edge (camera/NVR) type enumeration, from `camera.py`'s
VIDEO_EDGE_MODEL_NAMES table. -/
inductive VideoEdgeType
  | NVR
  | TURRET
  | TURRET_HL
  | BULLET
  | BULLET_HL
  | MINIDOME
  | MINIDOME_HL
  | UNKNOWN
  deriving DecidableEq, Repr

/-- A value stored in a device's free-form attribute mapping (vendor
schema holds numbers, strings and flags). -/
inductive AttrValue
  | intV (n : Int)
  | strV (s : String)
  | boolV (b : Bool)
  deriving DecidableEq, Repr

/-- A device (sensor/actuator) of a space; fields read by the entity
platforms under src/ (`type`, `raw_type`, `online`, `hub_id`,
`attributes`, ...), shapes per spec section 3. -/
structure AjaxDevice where
  id : String
  name : String
  type : DeviceType
  raw_type : Option String
  hub_id : String
  online : Bool
  battery : Option Int
  signal : Option Int
  attributes : String → Option AttrValue

/-- A group (independently armable sub-partition of a space). -/
structure AjaxGroup where
  id : String
  name : String
  state : GroupState
  night_mode_enabled : Bool
  bulk_arm_involved : Bool
  bulk_disarm_involved : Bool
  device_ids : List String

/-- A room of a space. -/
structure AjaxRoom where
  id : String
  name : String
  device_ids : List String

/-- An audit entry (spec section 3), fields read by
`alarm_control_panel.py` `extra_state_attributes`. -/
structure AjaxNotification where
  title : String
  user_name : Option String
  category : String

/-- A camera/NVR device, fields read by `camera.py`. -/
structure AjaxVideoEdge where
  id : String
  name : String
  ip_address : Option String
  mac_address : Option String
  firmware_version : Option String
  connection_state : String
  color : Option String
  video_edge_type : VideoEdgeType

/-- One physical site (one hub); spec section 3. -/
structure AjaxSpace where
  id : String
  name : String
  hub_id : String
  security_state : SecurityState
  group_mode_enabled : Bool
  groups : String → Option AjaxGroup
  rooms : String → Option AjaxRoom
  devices : String → Option AjaxDevice
  video_edges : String → Option AjaxVideoEdge
  notifications : List AjaxNotification
  unread_notifications : Nat

/-- Root container: mapping from space identifier to Space. -/
structure AjaxAccount where
  spaces : String → Option AjaxSpace

/-- Errors raised by the vendor REST API client (`api.py`, not under
src/): `AjaxRestAuthError` (non-retryable authentication failure) and
`AjaxRestApiError` (transient API failure), per spec sections 6 and 7. -/
inductive AjaxRestError
  | authError (msg : String)
  | apiError (msg : String)
  deriving DecidableEq, Repr

/- ---------------------------------------------------------------------
Reconciliation coordinator state and read accessors
(`coordinator.py` is not under src/; the state container and the
`get_space`/`get_group` accessors are modelled from the spec,
section 6: "get_space(space_id), get_group(space_id, group_id) →
current model object or absent-marker").
--------------------------------------------------------------------- -/

/-- Coordinator state: the current account snapshot (absent before the
first successful refresh). -/
structure AjaxDataCoordinator where
  account : Option AjaxAccount

/-- Modelled from the spec: `coordinator.py` is not under src/.
Section 6: `get_space(space_id)` returns the current model object or an
absent-marker. -/
def get_space (c : AjaxDataCoordinator) (space_id : String) : Option AjaxSpace :=
  match c.account with
  | none => none
  | some a => a.spaces space_id

/-- Modelled from the spec: `coordinator.py` is not under src/.
Section 6: `get_group(space_id, group_id)` returns the current model
object or an absent-marker. -/
def get_group (c : AjaxDataCoordinator) (space_id group_id : String) : Option AjaxGroup :=
  match get_space c space_id with
  | none => none
  | some sp => sp.groups group_id

/-- Keyed in-place update of one space of an account (the targeted
single-object mutation the coordinator performs on the live model). -/
def updateSpace (a : AjaxAccount) (space_id : String) (f : AjaxSpace → AjaxSpace) :
    AjaxAccount :=
  { spaces := fun sid => if sid = space_id then (a.spaces sid).map f else a.spaces sid }

/-- Lift `updateSpace` to the coordinator state (no-op when no snapshot
exists yet). -/
def coordUpdateSpace (c : AjaxDataCoordinator) (space_id : String)
    (f : AjaxSpace → AjaxSpace) : AjaxDataCoordinator :=
  { account := c.account.map (fun a => updateSpace a space_id f) }

/-- Keyed in-place update of one group inside one space. -/
def coordUpdateGroup (c : AjaxDataCoordinator) (space_id group_id : String)
    (f : AjaxGroup → AjaxGroup) : AjaxDataCoordinator :=
  coordUpdateSpace c space_id (fun sp =>
    { sp with groups := fun gid =>
        if gid = group_id then (sp.groups gid).map f else sp.groups gid })

/-- Device lookup through a space, as the select platform's
`_get_device` does: `space.devices.get(device_id) if space else None`
(`select.py`). -/
def get_device (c : AjaxDataCoordinator) (space_id device_id : String) :
    Option AjaxDevice :=
  match get_space c space_id with
  | none => none
  | some sp => sp.devices device_id

/- ---------------------------------------------------------------------
Full refresh (spec-modelled: `coordinator.py` is not under src/).
--------------------------------------------------------------------- -/

/-- Modelled from the spec: `coordinator.py`'s refresh cycle is not under
src/.  Section 4.2: a full refresh fetches the complete graph,
constructs a brand-new Account and atomically swaps it in; "on transient
API failure, the previous snapshot is retained (stale-but-available)".
The outcome of the `get_account_snapshot()` fetch is passed in as an
`Except` value. -/
def coordinator_refresh (c : AjaxDataCoordinator)
    (fetch : Except AjaxRestError AjaxAccount) : AjaxDataCoordinator :=
  match fetch with
  | .ok acct => { account := some acct }
  | .error _ => c

/- ---------------------------------------------------------------------
Push-event application (spec-modelled: the coordinator's `handle_event`
entry point, registered as the SQS listener's callback in
`__init__.py` line 92, lives in `coordinator.py`, which is not under
src/).
--------------------------------------------------------------------- -/

/-- A decoded push event: a type discriminator, target space/device
identifiers, and a change payload (spec section 4.4; the
device-attribute payload shape is given by spec section 8 property 8:
`{"type":"device_attribute","space_id":...,"device_id":...,"patch":...}`). -/
structure AjaxEvent where
  type : String
  space_id : String
  device_id : String
  patch : List (String × AttrValue)
  new_security_state : Option SecurityState
  notif : Option AjaxNotification

/-- Python `dict.update`: the patch's entries override the existing
mapping, all other keys keep their previous value. -/
def dictUpdate (attrs : String → Option AttrValue)
    (patch : List (String × AttrValue)) : String → Option AttrValue :=
  fun k =>
    match List.lookup k patch with
    | some v => some v
    | none => attrs k

/-- Bound on the retained notification history (spec section 3: "bounded
length (oldest entries dropped)"). -/
def NOTIFICATION_LIMIT : Nat := 50

/-- The in-place patch of one device's attribute mapping performed by a
device-attribute event. -/
def patchDeviceAttrs (e : AjaxEvent) (d : AjaxDevice) : AjaxDevice :=
  { d with attributes := dictUpdate d.attributes e.patch }

/-- The keyed update of a space's device mapping performed by a
device-attribute event: only the target device is patched. -/
def patchDevicesMap (e : AjaxEvent) (devs : String → Option AjaxDevice) :
    String → Option AjaxDevice :=
  fun did =>
    if did = e.device_id then (devs did).map (patchDeviceAttrs e) else devs did

/-- The space-level mutation of a device-attribute event. -/
def patchSpaceDevice (e : AjaxEvent) (sp : AjaxSpace) : AjaxSpace :=
  { sp with devices := patchDevicesMap e sp.devices }

/-- Modelled from the spec: `coordinator.py` is not under src/.
Section 4.4: for a device-attribute event, "update a single device's
attribute mapping" — a targeted, minimal mutation of the existing model
object; "if the referenced space/device is not present in the current
model ... the event is dropped silently". -/
def apply_device_attribute_event (c : AjaxDataCoordinator) (e : AjaxEvent) :
    AjaxDataCoordinator :=
  match get_space c e.space_id with
  | none => c
  | some sp =>
    match sp.devices e.device_id with
    | none => c
    | some _ => coordUpdateSpace c e.space_id (patchSpaceDevice e)

/-- Modelled from the spec: `coordinator.py` is not under src/.
Section 4.4: for a security-state event, "update a space's
security/group state"; absent space ⇒ dropped silently. -/
def apply_security_state_event (c : AjaxDataCoordinator) (e : AjaxEvent) :
    AjaxDataCoordinator :=
  match e.new_security_state with
  | none => c
  | some st =>
    match get_space c e.space_id with
    | none => c
    | some _ => coordUpdateSpace c e.space_id (fun sp => { sp with security_state := st })

/-- Modelled from the spec: `coordinator.py` is not under src/.
Section 4.4: for a notification event, "append a notification"
(most-recent-first, bounded length per section 3); absent space ⇒
dropped silently. -/
def apply_notification_event (c : AjaxDataCoordinator) (e : AjaxEvent) :
    AjaxDataCoordinator :=
  match e.notif with
  | none => c
  | some n =>
    match get_space c e.space_id with
    | none => c
    | some _ =>
      coordUpdateSpace c e.space_id (fun sp =>
        { sp with
            notifications := (n :: sp.notifications).take NOTIFICATION_LIMIT,
            unread_notifications := sp.unread_notifications + 1 })

/-- The recognized push-event type discriminators (spec section 4.4:
device attribute change, security-state change, notification). -/
def RECOGNIZED_EVENT_TYPES : List String :=
  ["device_attribute", "security_state", "notification"]

/-- Modelled from the spec: `coordinator.py`'s `handle_event` (the event
callback registered in `__init__.py` line 92) is not under src/.
Section 4.4: "dispatches on event-type discriminator to one of: update a
single device's attribute mapping, update a space's security/group
state, append a notification. ... Unknown event types are ignored
(logged, not fatal)."  The embedding is a total function: no path
raises. -/
def handle_event (c : AjaxDataCoordinator) (e : AjaxEvent) : AjaxDataCoordinator :=
  if e.type = "device_attribute" then apply_device_attribute_event c e
  else if e.type = "security_state" then apply_security_state_event c e
  else if e.type = "notification" then apply_notification_event c e
  else c

/- ---------------------------------------------------------------------
Entity-platform command embedding.  Each async entity method is a pure
function of the coordinator state and the outcome of the awaited API
call; it returns the resulting coordinator state, the ordered trace of
side-effecting actions performed, and the exception re-raised to the
caller (if any).
--------------------------------------------------------------------- -/

/-- A side-effecting action performed by an entity method, in program
order. -/
inductive EntityAction
  | write_security_state (space_id : String) (st : SecurityState)
  | write_group_state (space_id group_id : String) (st : GroupState)
  | write_ha_state
  | api_arm_space (space_id : String)
  | api_disarm_space (space_id : String)
  | api_arm_night (space_id : String)
  | api_arm_group (space_id group_id : String)
  | api_disarm_group (space_id group_id : String)
  | api_update_device (hub_id device_id : String) (patch : List (String × AttrValue))
  | request_refresh_bypass_cache
  | request_refresh
  deriving DecidableEq, Repr

/-- Result of one entity command method: final coordinator state, action
trace, and the error re-raised to the caller (none on success). -/
structure CommandResult where
  coordinator : AjaxDataCoordinator
  trace : List EntityAction
  raised : Option AjaxRestError

/- `AjaxAlarmControlPanel` (alarm_control_panel.py, lines 60-295). -/

/-- `_attr_available = True` (alarm_control_panel.py line 75): the space
alarm panel declares itself always available, keeping the last known
state on API errors. -/
def AjaxAlarmControlPanel.available : Bool := true

/-- The `state_map` dict literal of `AjaxAlarmControlPanel.alarm_state`
(alarm_control_panel.py lines 143-152), as the partial map the Python
`dict.get` consults. -/
def AjaxAlarmControlPanel.state_map : SecurityState → Option AlarmControlPanelState
  | .DISARMED => some .DISARMED
  | .ARMED => some .ARMED_AWAY
  | .NIGHT_MODE => some .ARMED_NIGHT
  | .PARTIALLY_ARMED => some .ARMED_HOME
  | .AWAITING_EXIT_TIMER => some .ARMING
  | .AWAITING_CONFIRMATION => some .PENDING
  | .ARMING_INCOMPLETE => some .ARMING
  | .TRIGGERED => some .TRIGGERED

/-- `AjaxAlarmControlPanel.alarm_state` (alarm_control_panel.py lines
135-154): None when the space is absent, otherwise
`state_map.get(space.security_state, AlarmControlPanelState.DISARMED)`. -/
def AjaxAlarmControlPanel.alarm_state (c : AjaxDataCoordinator) (space_id : String) :
    Option AlarmControlPanelState :=
  match get_space c space_id with
  | none => none
  | some sp => some ((AjaxAlarmControlPanel.state_map sp.security_state).getD .DISARMED)

/-- `AjaxAlarmControlPanel.async_alarm_disarm` (alarm_control_panel.py
lines 156-172): optimistic `space.security_state = DISARMED` plus
reader signal when the space exists, then the awaited
`coordinator.async_disarm_space` call; on failure a cache-bypassing
refresh is requested and the error re-raised. -/
def AjaxAlarmControlPanel.async_alarm_disarm (c : AjaxDataCoordinator)
    (space_id : String) (api : Except AjaxRestError Unit) : CommandResult :=
  let step :=
    match get_space c space_id with
    | some _ =>
      (coordUpdateSpace c space_id (fun sp => { sp with security_state := .DISARMED }),
       [EntityAction.write_security_state space_id .DISARMED, EntityAction.write_ha_state])
    | none => (c, [])
  match api with
  | .ok _ => ⟨step.1, step.2 ++ [EntityAction.api_disarm_space space_id], none⟩
  | .error err =>
    ⟨step.1,
     step.2 ++ [EntityAction.api_disarm_space space_id,
                EntityAction.request_refresh_bypass_cache],
     some err⟩

/-- `AjaxAlarmControlPanel.async_alarm_arm_away` (alarm_control_panel.py
lines 174-190): optimistic `space.security_state = ARMED` plus reader
signal when the space exists, then the awaited
`coordinator.async_arm_space` call; on failure a cache-bypassing refresh
is requested and the error re-raised. -/
def AjaxAlarmControlPanel.async_alarm_arm_away (c : AjaxDataCoordinator)
    (space_id : String) (api : Except AjaxRestError Unit) : CommandResult :=
  let step :=
    match get_space c space_id with
    | some _ =>
      (coordUpdateSpace c space_id (fun sp => { sp with security_state := .ARMED }),
       [EntityAction.write_security_state space_id .ARMED, EntityAction.write_ha_state])
    | none => (c, [])
  match api with
  | .ok _ => ⟨step.1, step.2 ++ [EntityAction.api_arm_space space_id], none⟩
  | .error err =>
    ⟨step.1,
     step.2 ++ [EntityAction.api_arm_space space_id,
                EntityAction.request_refresh_bypass_cache],
     some err⟩

/-- `AjaxAlarmControlPanel.async_alarm_arm_night` (alarm_control_panel.py
lines 192-208): optimistic `space.security_state = NIGHT_MODE` plus
reader signal when the space exists, then the awaited
`coordinator.async_arm_night_mode` call; on failure a cache-bypassing
refresh is requested and the error re-raised. -/
def AjaxAlarmControlPanel.async_alarm_arm_night (c : AjaxDataCoordinator)
    (space_id : String) (api : Except AjaxRestError Unit) : CommandResult :=
  let step :=
    match get_space c space_id with
    | some _ =>
      (coordUpdateSpace c space_id (fun sp => { sp with security_state := .NIGHT_MODE }),
       [EntityAction.write_security_state space_id .NIGHT_MODE, EntityAction.write_ha_state])
    | none => (c, [])
  match api with
  | .ok _ => ⟨step.1, step.2 ++ [EntityAction.api_arm_night space_id], none⟩
  | .error err =>
    ⟨step.1,
     step.2 ++ [EntityAction.api_arm_night space_id,
                EntityAction.request_refresh_bypass_cache],
     some err⟩

/- `AjaxGroupAlarmControlPanel` (alarm_control_panel.py, lines 298-400). -/

/-- `_attr_available = True` (alarm_control_panel.py line 310). -/
def AjaxGroupAlarmControlPanel.available : Bool := true

/-- The `state_map` dict literal of
`AjaxGroupAlarmControlPanel.alarm_state` (alarm_control_panel.py lines
345-349). -/
def AjaxGroupAlarmControlPanel.state_map : GroupState → Option AlarmControlPanelState
  | .ARMED => some .ARMED_AWAY
  | .DISARMED => some .DISARMED
  | .NONE => some .DISARMED

/-- `AjaxGroupAlarmControlPanel.alarm_state` (alarm_control_panel.py
lines 337-351): None when the group is absent, otherwise
`state_map.get(group.state, AlarmControlPanelState.DISARMED)`. -/
def AjaxGroupAlarmControlPanel.alarm_state (c : AjaxDataCoordinator)
    (space_id group_id : String) : Option AlarmControlPanelState :=
  match get_group c space_id group_id with
  | none => none
  | some g => some ((AjaxGroupAlarmControlPanel.state_map g.state).getD .DISARMED)

/-- `AjaxGroupAlarmControlPanel.async_alarm_disarm`
(alarm_control_panel.py lines 353-368): optimistic
`group.state = DISARMED` plus reader signal when the group exists, then
the awaited `coordinator.async_disarm_group` call — dispatched
unconditionally, with no short-circuit on the current group state; on
failure a cache-bypassing refresh is requested and the error
re-raised. -/
def AjaxGroupAlarmControlPanel.async_alarm_disarm (c : AjaxDataCoordinator)
    (space_id group_id : String) (api : Except AjaxRestError Unit) : CommandResult :=
  let step :=
    match get_group c space_id group_id with
    | some _ =>
      (coordUpdateGroup c space_id group_id (fun g => { g with state := .DISARMED }),
       [EntityAction.write_group_state space_id group_id .DISARMED,
        EntityAction.write_ha_state])
    | none => (c, [])
  match api with
  | .ok _ => ⟨step.1, step.2 ++ [EntityAction.api_disarm_group space_id group_id], none⟩
  | .error err =>
    ⟨step.1,
     step.2 ++ [EntityAction.api_disarm_group space_id group_id,
                EntityAction.request_refresh_bypass_cache],
     some err⟩

/-- `AjaxGroupAlarmControlPanel.async_alarm_arm_away`
(alarm_control_panel.py lines 370-385). -/
def AjaxGroupAlarmControlPanel.async_alarm_arm_away (c : AjaxDataCoordinator)
    (space_id group_id : String) (api : Except AjaxRestError Unit) : CommandResult :=
  let step :=
    match get_group c space_id group_id with
    | some _ =>
      (coordUpdateGroup c space_id group_id (fun g => { g with state := .ARMED }),
       [EntityAction.write_group_state space_id group_id .ARMED,
        EntityAction.write_ha_state])
    | none => (c, [])
  match api with
  | .ok _ => ⟨step.1, step.2 ++ [EntityAction.api_arm_group space_id group_id], none⟩
  | .error err =>
    ⟨step.1,
     step.2 ++ [EntityAction.api_arm_group space_id group_id,
                EntityAction.request_refresh_bypass_cache],
     some err⟩

/- ---------------------------------------------------------------------
Select platform (`select.py`).
--------------------------------------------------------------------- -/

/-- Possible exceptions of the select platform's option handler
(`select.py`): the host's generic `HomeAssistantError` and the
user-input `ServiceValidationError`. -/
inductive SelectError
  | homeAssistantError (key : String)
  | serviceValidationError (key : String)
  deriving DecidableEq, Repr

/-- `SHOCK_SENSITIVITY_OPTIONS` (select.py lines 35-39): API value →
translation key; 0=low, 4=normal, 7=high. -/
def SHOCK_SENSITIVITY_OPTIONS (v : Int) : Option String :=
  if v = 0 then some "low"
  else if v = 4 then some "normal"
  else if v = 7 then some "high"
  else none

/-- `SHOCK_SENSITIVITY_VALUES` (select.py line 42): the reverse mapping,
translation key → API value. -/
def SHOCK_SENSITIVITY_VALUES (k : String) : Option Int :=
  if k = "low" then some 0
  else if k = "normal" then some 4
  else if k = "high" then some 7
  else none

/-- `AjaxDoorPlusBaseSelect.available` (select.py lines 97-100):
`device.online if device else False`, with `_get_device` returning
`space.devices.get(device_id) if space else None`. -/
def AjaxDoorPlusBaseSelect.available (c : AjaxDataCoordinator)
    (space_id device_id : String) : Bool :=
  match get_device c space_id device_id with
  | some d => d.online
  | none => false

/-- Result of `async_select_option`: coordinator state, action trace and
the exception raised (none on success). -/
structure SelectResult where
  coordinator : AjaxDataCoordinator
  trace : List EntityAction
  raised : Option SelectError

/-- `AjaxShockSensitivitySelect.async_select_option` (select.py lines
130-163): raises `HomeAssistantError("space_not_found")` when the space
is absent; computes `value = SHOCK_SENSITIVITY_VALUES.get(option, 0)`;
raises `ServiceValidationError(system_armed)` when
`space.security_state != SecurityState.DISARMED` — all before any API
call; otherwise awaits `api.async_update_device` with the
`shockSensorSensitivity` patch, requesting a refresh on success and
raising `HomeAssistantError(failed_to_change)` on failure. -/
def AjaxShockSensitivitySelect.async_select_option (c : AjaxDataCoordinator)
    (space_id device_id : String) (option : String)
    (api : Except AjaxRestError Unit) : SelectResult :=
  match get_space c space_id with
  | none => ⟨c, [], some (SelectError.homeAssistantError "space_not_found")⟩
  | some sp =>
    let value := (SHOCK_SENSITIVITY_VALUES option).getD 0
    if sp.security_state ≠ SecurityState.DISARMED then
      ⟨c, [], some (SelectError.serviceValidationError "system_armed")⟩
    else
      match api with
      | .ok _ =>
        ⟨c,
         [EntityAction.api_update_device sp.hub_id device_id
            [("shockSensorSensitivity", AttrValue.intV value)],
          EntityAction.request_refresh],
         none⟩
      | .error _ =>
        ⟨c,
         [EntityAction.api_update_device sp.hub_id device_id
            [("shockSensorSensitivity", AttrValue.intV value)]],
         some (SelectError.homeAssistantError "failed_to_change")⟩

/- ---------------------------------------------------------------------
Camera platform (`camera.py`).
--------------------------------------------------------------------- -/

/-- `AjaxVideoEdgeCamera._video_edge` (camera.py lines 115-121):
`coordinator.data.spaces.get(space_id)` then
`space.video_edges.get(video_edge_id)`. -/
def AjaxVideoEdgeCamera.video_edge (c : AjaxDataCoordinator)
    (space_id video_edge_id : String) : Option AjaxVideoEdge :=
  match get_space c space_id with
  | none => none
  | some sp => sp.video_edges video_edge_id

/-- `AjaxVideoEdgeCamera.available` (camera.py lines 123-129): False
when the video edge is absent, otherwise
`video_edge.connection_state == "ONLINE"`. -/
def AjaxVideoEdgeCamera.available (c : AjaxDataCoordinator)
    (space_id video_edge_id : String) : Bool :=
  match AjaxVideoEdgeCamera.video_edge c space_id video_edge_id with
  | none => false
  | some ve => ve.connection_state = "ONLINE"

/- ---------------------------------------------------------------------
Device-handler registry (`devices/__init__.py`).
--------------------------------------------------------------------- -/

/-- The handler classes imported by `devices/__init__.py`. -/
inductive HandlerType
  | MotionDetectorHandler
  | DoorContactHandler
  | WireInputHandler
  | SmokeDetectorHandler
  | FloodDetectorHandler
  | ManualCallPointHandler
  | GlassBreakHandler
  | SocketHandler
  | SirenHandler
  | TransmitterHandler
  | ButtonHandler
  | DoorbellHandler
  | RepeaterHandler
  | HubHandler
  | WaterStopHandler
  | LifeQualityHandler
  | DimmerHandler
  | DoorbellCamHandler
  | LightHandler
  | LightSwitchHandler
  | VideoEdgeHandler
  deriving DecidableEq, Repr

/-- `DEVICE_HANDLERS` (devices/__init__.py lines 44-68): the canonical
DeviceType → handler registry; types absent from the dict (e.g.
VIDEO_EDGE, UNKNOWN) have no registered handler. -/
def DEVICE_HANDLERS : DeviceType → Option HandlerType
  | .MOTION_DETECTOR => some .MotionDetectorHandler
  | .COMBI_PROTECT => some .MotionDetectorHandler
  | .DOOR_CONTACT => some .DoorContactHandler
  | .WIRE_INPUT => some .WireInputHandler
  | .SMOKE_DETECTOR => some .SmokeDetectorHandler
  | .FLOOD_DETECTOR => some .FloodDetectorHandler
  | .MANUAL_CALL_POINT => some .ManualCallPointHandler
  | .GLASS_BREAK => some .GlassBreakHandler
  | .SOCKET => some .SocketHandler
  | .RELAY => some .SocketHandler
  | .WALLSWITCH => some .SocketHandler
  | .SIREN => some .SirenHandler
  | .SPEAKERPHONE => some .SirenHandler
  | .TRANSMITTER => some .TransmitterHandler
  | .MULTI_TRANSMITTER => some .SirenHandler
  | .KEYPAD => some .SirenHandler
  | .BUTTON => some .ButtonHandler
  | .REMOTE_CONTROL => some .ButtonHandler
  | .DOORBELL => some .DoorbellHandler
  | .REPEATER => some .RepeaterHandler
  | .HUB => some .HubHandler
  | .WATERSTOP => some .WaterStopHandler
  | .LIFE_QUALITY => some .LifeQualityHandler
  | .VIDEO_EDGE => none
  | .UNKNOWN => none

/-- `DIMMER_RAW_TYPES` (devices/__init__.py line 70). -/
def DIMMER_RAW_TYPES : List String := ["lightswitchdimmer", "light_switch_dimmer"]

/-- Python `(device.raw_type or "").lower().replace("_", "")`: lowercase
every character, then drop every underscore (in Lean 4.14 a `String`
wraps its list of characters, so the two string methods are the
corresponding list operations). -/
def normalizeRawType (raw : Option String) : String :=
  ⟨((raw.getD "").data.map Char.toLower).filter (fun ch => ch ≠ '_')⟩

/-- `is_dimmer_device` (devices/__init__.py lines 73-76): the normalized
raw vendor type is a known dimmer type or has "dimmer" as a substring. -/
def is_dimmer_device (d : AjaxDevice) : Bool :=
  let raw_type := normalizeRawType d.raw_type
  decide (raw_type ∈ DIMMER_RAW_TYPES) || decide ("dimmer".data <:+: raw_type.data)

/-- `get_device_handler` (devices/__init__.py lines 79-87): DimmerHandler
for dimmer devices, else the registry entry for the device's type, else
None. -/
def get_device_handler (d : AjaxDevice) : Option HandlerType :=
  if is_dimmer_device d then some HandlerType.DimmerHandler
  else DEVICE_HANDLERS d.type

/- ---------------------------------------------------------------------
Config-entry setup (`__init__.py`).
--------------------------------------------------------------------- -/

/-- Outcome of `async_setup_entry`'s initial API probe dispatch
(`__init__.py` lines 66-76): continue setup, `return False` (fatal,
not retried), or `raise ConfigEntryNotReady` (host backoff/retry). -/
inductive SetupOutcome
  | proceed
  | return_false
  | raise_config_entry_not_ready
  deriving DecidableEq, Repr

/-- `async_setup_entry`'s probe error dispatch (`__init__.py` lines
66-76): `await api.async_get_hubs()`; `except AjaxRestAuthError: return
False`; `except AjaxRestApiError: raise ConfigEntryNotReady`. -/
def async_setup_entry_probe (probe : Except AjaxRestError Unit) : SetupOutcome :=
  match probe with
  | .ok _ => .proceed
  | .error (.authError _) => .return_false
  | .error (.apiError _) => .raise_config_entry_not_ready

/- ---------------------------------------------------------------------
Security-state parsing (spec-modelled: `models.py` is not under src/).
--------------------------------------------------------------------- -/

/-- The raw server strings corresponding to the enumerated security
states. -/
def SECURITY_STATE_RAW_VALUES : List String :=
  ["DISARMED", "ARMED", "NIGHT_MODE", "PARTIALLY_ARMED", "AWAITING_EXIT_TIMER",
   "AWAITING_CONFIRMATION", "ARMING_INCOMPLETE", "TRIGGERED"]

/-- Modelled from the spec: `models.py` (the SecurityState parser) is not
under src/.  Section 3: "`security_state` is always one of the
enumerated values; unknown server values must map to DISARMED rather
than raising." -/
def SecurityState.from_raw (raw : String) : SecurityState :=
  if raw = "DISARMED" then .DISARMED
  else if raw = "ARMED" then .ARMED
  else if raw = "NIGHT_MODE" then .NIGHT_MODE
  else if raw = "PARTIALLY_ARMED" then .PARTIALLY_ARMED
  else if raw = "AWAITING_EXIT_TIMER" then .AWAITING_EXIT_TIMER
  else if raw = "AWAITING_CONFIRMATION" then .AWAITING_CONFIRMATION
  else if raw = "ARMING_INCOMPLETE" then .ARMING_INCOMPLETE
  else if raw = "TRIGGERED" then .TRIGGERED
  else .DISARMED

/- ---------------------------------------------------------------------
Helper lemmas about the keyed model updates.
--------------------------------------------------------------------- -/

theorem get_space_coordUpdateSpace_self (c : AjaxDataCoordinator) (space_id : String)
    (f : AjaxSpace → AjaxSpace) :
    get_space (coordUpdateSpace c space_id f) space_id = (get_space c space_id).map f := by
  cases c with
  | mk account =>
    cases account with
    | none => rfl
    | some a => simp [get_space, coordUpdateSpace, updateSpace]

theorem get_space_coordUpdateSpace_other (c : AjaxDataCoordinator)
    (space_id sid : String) (f : AjaxSpace → AjaxSpace) (h : sid ≠ space_id) :
    get_space (coordUpdateSpace c space_id f) sid = get_space c sid := by
  cases c with
  | mk account =>
    cases account with
    | none => rfl
    | some a => simp [get_space, coordUpdateSpace, updateSpace, h]

theorem updateSpace_comp (a : AjaxAccount) (space_id : String)
    (f g : AjaxSpace → AjaxSpace) :
    updateSpace (updateSpace a space_id f) space_id g
      = updateSpace a space_id (fun sp => g (f sp)) := by
  unfold updateSpace
  simp only [AjaxAccount.mk.injEq]
  funext sid
  by_cases h : sid = space_id
  · simp [h, Option.map_map]
    rfl
  · simp [h]

theorem coordUpdateSpace_comp (c : AjaxDataCoordinator) (space_id : String)
    (f g : AjaxSpace → AjaxSpace) :
    coordUpdateSpace (coordUpdateSpace c space_id f) space_id g
      = coordUpdateSpace c space_id (fun sp => g (f sp)) := by
  unfold coordUpdateSpace
  congr 1
  rw [Option.map_map]
  congr 1
  funext a
  exact updateSpace_comp a space_id f g

theorem get_group_coordUpdateGroup_self (c : AjaxDataCoordinator)
    (space_id group_id : String) (f : AjaxGroup → AjaxGroup) :
    get_group (coordUpdateGroup c space_id group_id f) space_id group_id
      = (get_group c space_id group_id).map f := by
  unfold get_group coordUpdateGroup
  rw [get_space_coordUpdateSpace_self]
  cases get_space c space_id with
  | none => rfl
  | some sp => simp

/- ---------------------------------------------------------------------
Concrete example state used by the witnesses.
--------------------------------------------------------------------- -/

def exDevice : AjaxDevice :=
  { id := "D1", name := "Door sensor", type := DeviceType.DOOR_CONTACT,
    raw_type := some "DoorProtectPlus", hub_id := "H1", online := true,
    battery := some 90, signal := some 80,
    attributes := fun k => if k = "shock_sensor_sensitivity" then some (AttrValue.intV 4) else none }

def exGroup : AjaxGroup :=
  { id := "G1", name := "Ground floor", state := GroupState.DISARMED,
    night_mode_enabled := true, bulk_arm_involved := false,
    bulk_disarm_involved := false, device_ids := ["D1"] }

def exVideoEdge : AjaxVideoEdge :=
  { id := "V1", name := "Front cam", ip_address := some "192.168.1.10",
    mac_address := some "AA:BB:CC:DD:EE:FF", firmware_version := some "1.0",
    connection_state := "ONLINE", color := some "WHITE",
    video_edge_type := VideoEdgeType.TURRET }

def exSpace : AjaxSpace :=
  { id := "S1", name := "Home", hub_id := "H1",
    security_state := SecurityState.DISARMED, group_mode_enabled := true,
    groups := fun gid => if gid = "G1" then some exGroup else none,
    rooms := fun _ => none,
    devices := fun did => if did = "D1" then some exDevice else none,
    video_edges := fun vid => if vid = "V1" then some exVideoEdge else none,
    notifications := [], unread_notifications := 0 }

def exAccount : AjaxAccount :=
  { spaces := fun sid => if sid = "S1" then some exSpace else none }

def exCoord : AjaxDataCoordinator := { account := some exAccount }

def exArmedSpace : AjaxSpace := { exSpace with security_state := SecurityState.ARMED }

def exArmedCoord : AjaxDataCoordinator :=
  { account := some { spaces := fun sid => if sid = "S1" then some exArmedSpace else none } }

/- ---------------------------------------------------------------------
Theorems.
--------------------------------------------------------------------- -/

/-- C3: for every push event whose type discriminator is not one of the
recognized event types, applying it via the coordinator's
event-application entry point leaves the entire model unchanged (the
embedding is a total function, so no exception is raised on any
path). -/
theorem C3_unknown_event_type_ignored :
    ∀ (c : AjaxDataCoordinator) (e : AjaxEvent),
      e.type ∉ RECOGNIZED_EVENT_TYPES → handle_event c e = c := by
  intro c e h
  have h1 : e.type ≠ "device_attribute" := fun hh => h (by simp [RECOGNIZED_EVENT_TYPES, hh])
  have h2 : e.type ≠ "security_state" := fun hh => h (by simp [RECOGNIZED_EVENT_TYPES, hh])
  have h3 : e.type ≠ "notification" := fun hh => h (by simp [RECOGNIZED_EVENT_TYPES, hh])
  simp [handle_event, h1, h2, h3]

/-- A push event with an unrecognized type discriminator, used as the
concrete witness input. -/
def exUnknownEvent : AjaxEvent :=
  { type := "hub_firmware_updated", space_id := "S1", device_id := "D1",
    patch := [], new_security_state := none, notif := none }

/-- Witness for C3 at a concrete unrecognized event. -/
theorem C3_witness : handle_event exCoord exUnknownEvent = exCoord :=
  C3_unknown_event_type_ignored exCoord exUnknownEvent (by decide)

/-- C4: a refresh attempt that fails with a transient ApiError leaves the
coordinator's model unchanged — for every space identifier, `get_space`
after the failed refresh returns the same value as before (the last-good
snapshot is retained, not discarded). -/
theorem C4_failed_refresh_retains_snapshot :
    ∀ (c : AjaxDataCoordinator) (msg : String) (space_id : String),
      get_space (coordinator_refresh c (Except.error (AjaxRestError.apiError msg))) space_id
        = get_space c space_id := by
  intro c msg space_id
  rfl

/-- C5: during config-entry setup, an authentication failure of the
initial `async_get_hubs` probe makes setup return failure fatally
(without raising the host's retry condition), while a transient API
error raises the host's ConfigEntryNotReady condition; the two outcomes
are distinct. -/
theorem C5_setup_error_dispatch :
    (∀ msg, async_setup_entry_probe (Except.error (AjaxRestError.authError msg))
        = SetupOutcome.return_false) ∧
    (∀ msg, async_setup_entry_probe (Except.error (AjaxRestError.apiError msg))
        = SetupOutcome.raise_config_entry_not_ready) ∧
    SetupOutcome.return_false ≠ SetupOutcome.raise_config_entry_not_ready :=
  ⟨fun _ => rfl, fun _ => rfl, by decide⟩

/-- An unrecognized raw security-state string parses to DISARMED. -/
theorem from_raw_unknown (raw : String) (h : raw ∉ SECURITY_STATE_RAW_VALUES) :
    SecurityState.from_raw raw = SecurityState.DISARMED := by
  simp only [SECURITY_STATE_RAW_VALUES, List.mem_cons, List.not_mem_nil, or_false,
    not_or] at h
  obtain ⟨h1, h2, h3, h4, h5, h6, h7, h8⟩ := h
  simp [SecurityState.from_raw, h1, h2, h3, h4, h5, h6, h7, h8]

/-- C7: a space's security_state is always one of the enumerated
SecurityState values (every raw server string parses to one, unknown
values to DISARMED rather than raising), and both alarm panels'
`alarm_state` properties return a defined panel state for every present
space/group, yielding the DISARMED panel state when the security state
is the unknown-value fallback. -/
theorem C7_alarm_state_total_unknown_disarmed :
    (∀ (raw : String) (c : AjaxDataCoordinator) (space_id : String) (sp : AjaxSpace),
      get_space c space_id = some sp →
      sp.security_state = SecurityState.from_raw raw →
      (∃ p, AjaxAlarmControlPanel.alarm_state c space_id = some p) ∧
      (raw ∉ SECURITY_STATE_RAW_VALUES →
        AjaxAlarmControlPanel.alarm_state c space_id
          = some AlarmControlPanelState.DISARMED)) ∧
    (∀ (c : AjaxDataCoordinator) (space_id group_id : String) (g : AjaxGroup),
      get_group c space_id group_id = some g →
      ∃ p, AjaxGroupAlarmControlPanel.alarm_state c space_id group_id = some p) := by
  constructor
  · intro raw c space_id sp hsp hst
    unfold AjaxAlarmControlPanel.alarm_state
    rw [hsp]
    refine ⟨⟨_, rfl⟩, fun hraw => ?_⟩
    show some ((AjaxAlarmControlPanel.state_map sp.security_state).getD
      AlarmControlPanelState.DISARMED) = some AlarmControlPanelState.DISARMED
    rw [hst, from_raw_unknown raw hraw]
    rfl
  · intro c space_id group_id g hg
    unfold AjaxGroupAlarmControlPanel.alarm_state
    rw [hg]
    exact ⟨_, rfl⟩

/-- Witness for C7: a concrete space whose security state came from the
unknown raw string "WEIRD_STATE", and a concrete group. -/
theorem C7_witness :
    (∃ p, AjaxAlarmControlPanel.alarm_state exCoord "S1" = some p) ∧
    AjaxAlarmControlPanel.alarm_state exCoord "S1" = some AlarmControlPanelState.DISARMED ∧
    (∃ p, AjaxGroupAlarmControlPanel.alarm_state exCoord "S1" "G1" = some p) := by
  have h := C7_alarm_state_total_unknown_disarmed.1 "WEIRD_STATE" exCoord "S1" exSpace
    rfl (by decide)
  exact ⟨h.1, h.2 (by decide), C7_alarm_state_total_unknown_disarmed.2 exCoord "S1" "G1" exGroup rfl⟩

/-- C8: every alarm-panel entity declares itself available
unconditionally, while device-backed entities derive availability from
the model's explicit online/connection flag: the DoorProtect Plus select
is available iff its device exists and is online, and the camera is
available iff its video edge exists with connection_state "ONLINE". -/
theorem C8_availability_split :
    (AjaxAlarmControlPanel.available = true ∧ AjaxGroupAlarmControlPanel.available = true) ∧
    (∀ (c : AjaxDataCoordinator) (space_id device_id : String),
      AjaxDoorPlusBaseSelect.available c space_id device_id = true ↔
        ∃ d, get_device c space_id device_id = some d ∧ d.online = true) ∧
    (∀ (c : AjaxDataCoordinator) (space_id video_edge_id : String),
      AjaxVideoEdgeCamera.available c space_id video_edge_id = true ↔
        ∃ ve, AjaxVideoEdgeCamera.video_edge c space_id video_edge_id = some ve ∧
          ve.connection_state = "ONLINE") := by
  refine ⟨⟨rfl, rfl⟩, ?_, ?_⟩
  · intro c space_id device_id
    unfold AjaxDoorPlusBaseSelect.available
    cases h : get_device c space_id device_id with
    | none => simp
    | some d => simp [h]
  · intro c space_id video_edge_id
    unfold AjaxVideoEdgeCamera.available
    cases h : AjaxVideoEdgeCamera.video_edge c space_id video_edge_id with
    | none => simp
    | some ve => simp [h]

/-- C9: the dimmer-detection heuristic is applied before the registry
lookup — `get_device_handler` returns DimmerHandler exactly when the
normalized raw vendor type (lowercased, underscores removed) is a known
dimmer type or contains "dimmer", regardless of the enumerated device
type, and otherwise returns the DEVICE_HANDLERS registry entry for the
device's type (None when unregistered). -/
theorem C9_handler_lookup :
    ∀ d : AjaxDevice,
      (is_dimmer_device d = true → get_device_handler d = some HandlerType.DimmerHandler) ∧
      (is_dimmer_device d = false → get_device_handler d = DEVICE_HANDLERS d.type) ∧
      (is_dimmer_device d = true ↔
        (normalizeRawType d.raw_type ∈ DIMMER_RAW_TYPES ∨
          "dimmer".data <:+: (normalizeRawType d.raw_type).data)) := by
  intro d
  refine ⟨fun h => by simp [get_device_handler, h],
          fun h => by simp [get_device_handler, h], ?_⟩
  unfold is_dimmer_device
  simp [Bool.or_eq_true, decide_eq_true_eq]

/-- A socket-typed device whose raw vendor type is a dimmer string: the
heuristic must win over the enumerated type. -/
def exDimmerDevice : AjaxDevice :=
  { exDevice with
    id := "D2",
    type := DeviceType.SOCKET,
    raw_type := some "LightSwitch_Dimmer" }

/-- Witness for C9: the heuristic fires on a dimmer raw type carried by a
SOCKET-typed device, and falls through to the registry on a non-dimmer
device. -/
theorem C9_witness :
    get_device_handler exDimmerDevice = some HandlerType.DimmerHandler ∧
    get_device_handler exDevice = DEVICE_HANDLERS exDevice.type :=
  ⟨(C9_handler_lookup exDimmerDevice).1 (by decide),
   (C9_handler_lookup exDevice).2.1 (by decide)⟩

/-- Overriding a mapping by the same patch twice equals overriding it
once (Python `dict.update` last-write-wins semantics). -/
theorem dictUpdate_idem (attrs : String → Option AttrValue)
    (patch : List (String × AttrValue)) :
    dictUpdate (dictUpdate attrs patch) patch = dictUpdate attrs patch := by
  funext k
  cases h : List.lookup k patch <;> simp [dictUpdate, h]

theorem patchDeviceAttrs_idem (e : AjaxEvent) (d : AjaxDevice) :
    patchDeviceAttrs e (patchDeviceAttrs e d) = patchDeviceAttrs e d := by
  show ({ d with attributes := dictUpdate (dictUpdate d.attributes e.patch) e.patch }
      : AjaxDevice) = { d with attributes := dictUpdate d.attributes e.patch }
  rw [dictUpdate_idem]

theorem patchDevicesMap_idem (e : AjaxEvent) (devs : String → Option AjaxDevice) :
    patchDevicesMap e (patchDevicesMap e devs) = patchDevicesMap e devs := by
  funext did
  unfold patchDevicesMap
  by_cases h : did = e.device_id
  · simp only [h, if_pos]
    cases hd : devs e.device_id with
    | none => rfl
    | some d => simp [patchDeviceAttrs_idem]
  · simp [h]

theorem patchSpaceDevice_idem (e : AjaxEvent) (sp : AjaxSpace) :
    patchSpaceDevice e (patchSpaceDevice e sp) = patchSpaceDevice e sp := by
  show ({ sp with devices := patchDevicesMap e (patchDevicesMap e sp.devices) }
      : AjaxSpace) = { sp with devices := patchDevicesMap e sp.devices }
  rw [patchDevicesMap_idem]

/-- Applying the same device-attribute event twice produces the same
model state as applying it once (for any coordinator state, presence or
not). -/
theorem apply_device_attribute_event_idem (c : AjaxDataCoordinator) (e : AjaxEvent) :
    apply_device_attribute_event (apply_device_attribute_event c e) e
      = apply_device_attribute_event c e := by
  cases h1 : get_space c e.space_id with
  | none =>
    have hid : apply_device_attribute_event c e = c := by
      unfold apply_device_attribute_event
      rw [h1]
    rw [hid, hid]
  | some sp =>
    cases h2 : sp.devices e.device_id with
    | none =>
      have hid : apply_device_attribute_event c e = c := by
        unfold apply_device_attribute_event
        rw [h1]
        simp [h2]
      rw [hid, hid]
    | some d =>
      have happ : apply_device_attribute_event c e
          = coordUpdateSpace c e.space_id (patchSpaceDevice e) := by
        unfold apply_device_attribute_event
        rw [h1]
        simp [h2]
      rw [happ]
      have h1' : get_space (coordUpdateSpace c e.space_id (patchSpaceDevice e)) e.space_id
          = some (patchSpaceDevice e sp) := by
        rw [get_space_coordUpdateSpace_self, h1]
        rfl
      have h2' : (patchSpaceDevice e sp).devices e.device_id
          = some (patchDeviceAttrs e d) := by
        show patchDevicesMap e sp.devices e.device_id = some (patchDeviceAttrs e d)
        simp [patchDevicesMap, h2]
      unfold apply_device_attribute_event
      simp only [h1', h2']
      rw [coordUpdateSpace_comp]
      have hfun : (fun sp' => patchSpaceDevice e (patchSpaceDevice e sp'))
          = patchSpaceDevice e := by
        funext sp'
        exact patchSpaceDevice_idem e sp'
      rw [hfun]

/-- C2: applying the same device-attribute push event twice through the
coordinator's event-application entry point produces exactly the same
model state as applying it once, for every event whose target space and
device are present in the model. -/
theorem C2_device_attribute_event_idempotent :
    ∀ (c : AjaxDataCoordinator) (e : AjaxEvent) (sp : AjaxSpace) (d : AjaxDevice),
      e.type = "device_attribute" →
      get_space c e.space_id = some sp →
      sp.devices e.device_id = some d →
      handle_event (handle_event c e) e = handle_event c e := by
  intro c e sp d ht _ _
  have hh : ∀ c', handle_event c' e = apply_device_attribute_event c' e := by
    intro c'
    simp [handle_event, ht]
  rw [hh, hh, apply_device_attribute_event_idem]

/-- The concrete device-attribute event of spec section 8, property 8. -/
def exAttrEvent : AjaxEvent :=
  { type := "device_attribute", space_id := "S1", device_id := "D1",
    patch := [("battery", AttrValue.intV 54)], new_security_state := none,
    notif := none }

/-- Witness for C2 at the concrete battery-patch event. -/
theorem C2_witness :
    handle_event (handle_event exCoord exAttrEvent) exAttrEvent
      = handle_event exCoord exAttrEvent :=
  C2_device_attribute_event_idempotent exCoord exAttrEvent exSpace exDevice rfl rfl rfl

/-- C1: for every space present in the model, the arm-away command
synchronously overwrites the space's security_state with ARMED and
signals readers before the API call is awaited (the model write and the
reader signal precede the API action in the trace); and for any of the
three commands whose API call fails, the entity requests a
cache-bypassing refresh and re-raises the error instead of rolling the
optimistic write back field-by-field (the failure path leaves the model
exactly as the success path does). -/
theorem C1_optimistic_arm_failure_refresh_reraise :
    (∀ (c : AjaxDataCoordinator) (space_id : String) (sp : AjaxSpace)
        (api : Except AjaxRestError Unit),
      get_space c space_id = some sp →
      get_space (AjaxAlarmControlPanel.async_alarm_arm_away c space_id api).coordinator
          space_id = some { sp with security_state := SecurityState.ARMED } ∧
      (AjaxAlarmControlPanel.async_alarm_arm_away c space_id api).trace.take 3
          = [EntityAction.write_security_state space_id SecurityState.ARMED,
             EntityAction.write_ha_state, EntityAction.api_arm_space space_id]) ∧
    (∀ (c : AjaxDataCoordinator) (space_id : String) (err : AjaxRestError),
      ((AjaxAlarmControlPanel.async_alarm_arm_away c space_id (Except.error err)).raised
          = some err ∧
        EntityAction.request_refresh_bypass_cache ∈
          (AjaxAlarmControlPanel.async_alarm_arm_away c space_id (Except.error err)).trace ∧
        (AjaxAlarmControlPanel.async_alarm_arm_away c space_id (Except.error err)).coordinator
          = (AjaxAlarmControlPanel.async_alarm_arm_away c space_id (Except.ok ())).coordinator) ∧
      ((AjaxAlarmControlPanel.async_alarm_disarm c space_id (Except.error err)).raised
          = some err ∧
        EntityAction.request_refresh_bypass_cache ∈
          (AjaxAlarmControlPanel.async_alarm_disarm c space_id (Except.error err)).trace ∧
        (AjaxAlarmControlPanel.async_alarm_disarm c space_id (Except.error err)).coordinator
          = (AjaxAlarmControlPanel.async_alarm_disarm c space_id (Except.ok ())).coordinator) ∧
      ((AjaxAlarmControlPanel.async_alarm_arm_night c space_id (Except.error err)).raised
          = some err ∧
        EntityAction.request_refresh_bypass_cache ∈
          (AjaxAlarmControlPanel.async_alarm_arm_night c space_id (Except.error err)).trace ∧
        (AjaxAlarmControlPanel.async_alarm_arm_night c space_id (Except.error err)).coordinator
          = (AjaxAlarmControlPanel.async_alarm_arm_night c space_id (Except.ok ())).coordinator)) := by
  constructor
  · intro c space_id sp api hsp
    constructor
    · cases api with
      | ok u =>
        simp only [AjaxAlarmControlPanel.async_alarm_arm_away, hsp]
        rw [get_space_coordUpdateSpace_self, hsp]
        rfl
      | error err =>
        simp only [AjaxAlarmControlPanel.async_alarm_arm_away, hsp]
        rw [get_space_coordUpdateSpace_self, hsp]
        rfl
    · cases api with
      | ok u => simp [AjaxAlarmControlPanel.async_alarm_arm_away, hsp]
      | error err => simp [AjaxAlarmControlPanel.async_alarm_arm_away, hsp]
  · intro c space_id err
    refine ⟨⟨rfl, ?_, rfl⟩, ⟨rfl, ?_, rfl⟩, ⟨rfl, ?_, rfl⟩⟩
    · cases hsp : get_space c space_id <;>
        simp [AjaxAlarmControlPanel.async_alarm_arm_away, hsp]
    · cases hsp : get_space c space_id <;>
        simp [AjaxAlarmControlPanel.async_alarm_disarm, hsp]
    · cases hsp : get_space c space_id <;>
        simp [AjaxAlarmControlPanel.async_alarm_arm_night, hsp]

/-- Witness for C1 at a concrete coordinator and a failing API call. -/
theorem C1_witness :
    get_space (AjaxAlarmControlPanel.async_alarm_arm_away exCoord "S1"
        (Except.error (AjaxRestError.apiError "boom"))).coordinator "S1"
      = some { exSpace with security_state := SecurityState.ARMED } ∧
    (AjaxAlarmControlPanel.async_alarm_arm_away exCoord "S1"
        (Except.error (AjaxRestError.apiError "boom"))).trace.take 3
      = [EntityAction.write_security_state "S1" SecurityState.ARMED,
         EntityAction.write_ha_state, EntityAction.api_arm_space "S1"] ∧
    (AjaxAlarmControlPanel.async_alarm_arm_away exCoord "S1"
        (Except.error (AjaxRestError.apiError "boom"))).raised
      = some (AjaxRestError.apiError "boom") :=
  ⟨(C1_optimistic_arm_failure_refresh_reraise.1 exCoord "S1" exSpace
      (Except.error (AjaxRestError.apiError "boom")) rfl).1,
   (C1_optimistic_arm_failure_refresh_reraise.1 exCoord "S1" exSpace
      (Except.error (AjaxRestError.apiError "boom")) rfl).2,
   (C1_optimistic_arm_failure_refresh_reraise.2 exCoord "S1"
      (AjaxRestError.apiError "boom")).1.1⟩

/-- C6: the group disarm command always dispatches the disarm call to
the API — even for a group whose state is already DISARMED there is no
client-side short-circuit — and on success the group's state is left as
GroupState.DISARMED. -/
theorem C6_group_disarm_no_short_circuit :
    ∀ (c : AjaxDataCoordinator) (space_id group_id : String) (g : AjaxGroup)
      (api : Except AjaxRestError Unit),
      get_group c space_id group_id = some g →
      g.state = GroupState.DISARMED →
      EntityAction.api_disarm_group space_id group_id ∈
        (AjaxGroupAlarmControlPanel.async_alarm_disarm c space_id group_id api).trace ∧
      (api = Except.ok () →
        ∃ g', get_group
            (AjaxGroupAlarmControlPanel.async_alarm_disarm c space_id group_id api).coordinator
            space_id group_id = some g' ∧ g'.state = GroupState.DISARMED) := by
  intro c space_id group_id g api hg _
  constructor
  · cases api with
    | ok u => simp [AjaxGroupAlarmControlPanel.async_alarm_disarm, hg]
    | error err => simp [AjaxGroupAlarmControlPanel.async_alarm_disarm, hg]
  · intro hok
    subst hok
    simp only [AjaxGroupAlarmControlPanel.async_alarm_disarm, hg]
    refine ⟨{ g with state := GroupState.DISARMED }, ?_, rfl⟩
    rw [get_group_coordUpdateGroup_self, hg]
    rfl

/-- Witness for C6: disarming the already-DISARMED concrete group. -/
theorem C6_witness :
    EntityAction.api_disarm_group "S1" "G1" ∈
      (AjaxGroupAlarmControlPanel.async_alarm_disarm exCoord "S1" "G1"
        (Except.ok ())).trace ∧
    ∃ g', get_group
        (AjaxGroupAlarmControlPanel.async_alarm_disarm exCoord "S1" "G1"
          (Except.ok ())).coordinator "S1" "G1" = some g' ∧
      g'.state = GroupState.DISARMED :=
  ⟨(C6_group_disarm_no_short_circuit exCoord "S1" "G1" exGroup (Except.ok ()) rfl rfl).1,
   (C6_group_disarm_no_short_circuit exCoord "S1" "G1" exGroup (Except.ok ()) rfl rfl).2 rfl⟩

/-- C10: changing the shock-sensor sensitivity is guarded by the space's
armed state — when the space's security_state is not DISARMED the
handler raises ServiceValidationError before any API call (empty action
trace, model unchanged), and when the space is absent from the model it
raises an error rather than silently returning. -/
theorem C10_shock_sensitivity_armed_guard :
    ∀ (c : AjaxDataCoordinator) (space_id device_id opt : String)
      (api : Except AjaxRestError Unit),
      (∀ sp, get_space c space_id = some sp →
        sp.security_state ≠ SecurityState.DISARMED →
        (AjaxShockSensitivitySelect.async_select_option c space_id device_id opt api).raised
            = some (SelectError.serviceValidationError "system_armed") ∧
        (AjaxShockSensitivitySelect.async_select_option c space_id device_id opt api).trace
            = [] ∧
        (AjaxShockSensitivitySelect.async_select_option c space_id device_id opt api).coordinator
            = c) ∧
      (get_space c space_id = none →
        (AjaxShockSensitivitySelect.async_select_option c space_id device_id opt api).raised
            = some (SelectError.homeAssistantError "space_not_found") ∧
        (AjaxShockSensitivitySelect.async_select_option c space_id device_id opt api).trace
            = []) := by
  intro c space_id device_id opt api
  constructor
  · intro sp hsp harmed
    simp [AjaxShockSensitivitySelect.async_select_option, hsp, harmed]
  · intro hsp
    simp [AjaxShockSensitivitySelect.async_select_option, hsp]

/-- Witness for C10: an armed concrete space and an absent space. -/
theorem C10_witness :
    (AjaxShockSensitivitySelect.async_select_option exArmedCoord "S1" "D1" "high"
        (Except.ok ())).raised
      = some (SelectError.serviceValidationError "system_armed") ∧
    (AjaxShockSensitivitySelect.async_select_option exArmedCoord "S1" "D1" "high"
        (Except.ok ())).trace = [] ∧
    (AjaxShockSensitivitySelect.async_select_option exCoord "S2" "D1" "high"
        (Except.ok ())).raised
      = some (SelectError.homeAssistantError "space_not_found") :=
  ⟨((C10_shock_sensitivity_armed_guard exArmedCoord "S1" "D1" "high"
      (Except.ok ())).1 exArmedSpace rfl (by decide)).1,
   ((C10_shock_sensitivity_armed_guard exArmedCoord "S1" "D1" "high"
      (Except.ok ())).1 exArmedSpace rfl (by decide)).2.1,
   ((C10_shock_sensitivity_armed_guard exCoord "S2" "D1" "high"
      (Except.ok ())).2 rfl).1⟩
